import Mathlib

/-!
Verification of the PocketBase MCP server (TypeScript sources
`src/config-loader.ts` and `src/mcp-server.ts`) against its
natural-language specification.

The TypeScript code is shallowly embedded: JavaScript strings become
`String`, optional / possibly-`undefined` values become `Option`,
thrown `Error` objects become an explicit `JsError` value threaded via
`Except`, and the Node.js filesystem is an explicit association-list
state `FS`.  Each embedded definition carries a comment naming the
source lines it mirrors.
-/

set_option maxRecDepth 4096

/-- Semantics of the JavaScript expression `a || b` when `a` is a possibly
`undefined` string and `b` a string: `undefined` and the empty string are
falsy, any other string is returned unchanged. -/
def jsOrStr (a : Option String) (b : String) : String :=
  match a with
  | some s => if s = "" then b else s
  | none => b

/-- Occurs-contiguously test on lists: `listContainsSeq pat l` is `true`
when `pat` appears as a contiguous run inside `l`. -/
def listContainsSeq (pat : List Char) : List Char → Bool
  | [] => pat.isEmpty
  | a :: l => pat.isPrefixOf (a :: l) || listContainsSeq pat l

/-- Substring test: `containsStr s pat` is `true` when `pat` occurs
contiguously inside `s` (used to formalise "message contains ...") . -/
def containsStr (s pat : String) : Bool :=
  listContainsSeq pat.data s.data

/-- Suffix test on strings, mirroring JavaScript `s.endsWith(suffix)`. -/
def strEndsWith (s suffix : String) : Bool :=
  suffix.data.isSuffixOf s.data

/-- Model of Node.js `path.join` restricted to the shapes the server uses:
joining with an empty component returns the other component unchanged
(as `path.join(dir, '')` does in Node), otherwise the parts are joined
with a single separator. -/
def pathJoin (a b : String) : String :=
  if a = "" then b
  else if b = "" then a
  else a ++ "/" ++ b

/-- The default PocketBase URL literal used by both `config-loader.ts`
line 30 and `mcp-server.ts` line 36. -/
def defaultUrl : String := "http://127.0.0.1:8090"

/-- Parsed shape of the `.pocketbase-mcp.json` config file: the loader only
reads its `url` field (`config-loader.ts` line 13); a missing or empty
`url` is falsy in JavaScript. -/
structure LocalConfig where
  url : Option String
deriving DecidableEq

/-- Embedding of `loadPocketBaseUrl` (`config-loader.ts` lines 7-33).
`fileExists` is the result of `existsSync` on `.pocketbase-mcp.json`,
`parsed` the outcome of `JSON.parse` on its contents (`none` = parse
error, swallowed by the `try`/`catch`), and `env` the value of the
`POCKETBASE_URL` environment variable. -/
def loadPocketBaseUrl (fileExists : Bool) (parsed : Option LocalConfig)
    (env : Option String) : String :=
  -- steps 2 and 3: environment variable, then the default literal
  let envStep : String :=
    match env with
    | some envUrl => if envUrl = "" then defaultUrl else envUrl
    | none => defaultUrl
  -- step 1: the local config file
  if fileExists then
    match parsed with
    | some config =>
      match config.url with
      | some u => if u = "" then envStep else u
      | none => envStep
    | none => envStep
  else envStep

/-- Formalises the claim's phrase "the config file has a non-empty url
field available": `some u` exactly when tier 1 of the resolution yields
the value `u`. -/
def specFileTierUrl (fileExists : Bool) (parsed : Option LocalConfig) :
    Option String :=
  if fileExists then
    match parsed with
    | some config =>
      match config.url with
      | some u => if u = "" then none else some u
      | none => none
    | none => none
  else none

/-- Formalises the claim's phrase "the environment variable is set and
non-empty": `some e` exactly when tier 2 yields the value `e`. -/
def specEnvTierUrl (env : Option String) : Option String :=
  match env with
  | some e => if e = "" then none else some e
  | none => none

/-- Ambient process state visible to the server's constructor: the local
`.pocketbase-mcp.json` file (absent, unparseable, or parsed) and the
`POCKETBASE_URL` environment variable. -/
structure SysState where
  localConfigFile : Option (Option LocalConfig)
  pocketbaseUrlEnv : Option String
deriving DecidableEq

/-- Embedding of the PocketBase-client URL computed by the server's
constructor (`mcp-server.ts` line 36):
`process.env.POCKETBASE_URL || 'http://127.0.0.1:8090'`.
The constructor reads only the environment variable; it does not import
or call `loadPocketBaseUrl`, so `localConfigFile` is never inspected. -/
def constructorPbUrl (st : SysState) : String :=
  jsOrStr st.pocketbaseUrlEnv defaultUrl

/-- Closed form of the three-tier resolution: the loader returns the
file-tier value when available, else the environment-tier value, else
the default literal. -/
theorem loadPocketBaseUrl_eq_tiers (fileExists : Bool)
    (parsed : Option LocalConfig) (env : Option String) :
    loadPocketBaseUrl fileExists parsed env =
      (specFileTierUrl fileExists parsed).getD
        ((specEnvTierUrl env).getD defaultUrl) := by
  have henv : (match env with
      | some envUrl => if envUrl = "" then defaultUrl else envUrl
      | none => defaultUrl) = (specEnvTierUrl env).getD defaultUrl := by
    cases env with
    | none => rfl
    | some ev => by_cases hev : ev = "" <;> simp [specEnvTierUrl, hev]
  cases fileExists with
  | false => simpa [loadPocketBaseUrl, specFileTierUrl] using henv
  | true =>
    cases parsed with
    | none => simpa [loadPocketBaseUrl, specFileTierUrl] using henv
    | some config =>
      cases hu : config.url with
      | none => simpa [loadPocketBaseUrl, specFileTierUrl, hu] using henv
      | some v =>
        by_cases hv : v = ""
        · simpa [loadPocketBaseUrl, specFileTierUrl, hu, hv] using henv
        · simp [loadPocketBaseUrl, specFileTierUrl, hu, hv]

/-- C3: base-URL resolution in `loadPocketBaseUrl` obeys the three-tier
precedence: a non-empty config-file `url` wins over everything (even a
set environment variable); otherwise a set, non-empty environment
variable wins; otherwise the result is `http://127.0.0.1:8090`. -/
theorem loadPocketBaseUrl_three_tier_precedence :
    (∀ (fileExists : Bool) (parsed : Option LocalConfig) (env : Option String)
      (u : String), specFileTierUrl fileExists parsed = some u →
        loadPocketBaseUrl fileExists parsed env = u) ∧
    (∀ (fileExists : Bool) (parsed : Option LocalConfig) (env : Option String)
      (e : String), specFileTierUrl fileExists parsed = none →
        specEnvTierUrl env = some e →
        loadPocketBaseUrl fileExists parsed env = e) ∧
    (∀ (fileExists : Bool) (parsed : Option LocalConfig) (env : Option String),
      specFileTierUrl fileExists parsed = none →
      specEnvTierUrl env = none →
      loadPocketBaseUrl fileExists parsed env = defaultUrl) := by
  refine ⟨?_, ?_, ?_⟩
  · intro fileExists parsed env u h
    rw [loadPocketBaseUrl_eq_tiers, h]
    rfl
  · intro fileExists parsed env e h1 h2
    rw [loadPocketBaseUrl_eq_tiers, h1, h2]
    rfl
  · intro fileExists parsed env h1 h2
    rw [loadPocketBaseUrl_eq_tiers, h1, h2]
    rfl

/-- Witness for C3: the three precedence cases evaluated at the spec's own
test inputs (`http://a` in the file beats `http://b` in the environment;
environment alone; neither). -/
theorem loadPocketBaseUrl_three_tier_precedence_witness :
    loadPocketBaseUrl true (some ⟨some "http://a"⟩) (some "http://b") =
      "http://a" ∧
    loadPocketBaseUrl false none (some "http://b") = "http://b" ∧
    loadPocketBaseUrl false none none = "http://127.0.0.1:8090" := by
  refine ⟨?_, ?_, ?_⟩
  · exact loadPocketBaseUrl_three_tier_precedence.1 true
      (some ⟨some "http://a"⟩) (some "http://b") "http://a" (by decide)
  · exact loadPocketBaseUrl_three_tier_precedence.2.1 false none
      (some "http://b") "http://b" (by decide) (by decide)
  · exact loadPocketBaseUrl_three_tier_precedence.2.2 false none none
      (by decide) (by decide)

/-- C4: the URL handed to the PocketBase client by the server's
constructor depends only on the `POCKETBASE_URL` environment variable —
two process states agreeing on the environment variable but with any
local config files yield the same URL — and it falls back to
`http://127.0.0.1:8090` when the variable is unset, taking the
variable's value when it is set and non-empty. -/
theorem constructorPbUrl_env_only :
    (∀ st st' : SysState,
      st.pocketbaseUrlEnv = st'.pocketbaseUrlEnv →
      constructorPbUrl st = constructorPbUrl st') ∧
    (∀ st : SysState, st.pocketbaseUrlEnv = none →
      constructorPbUrl st = defaultUrl) ∧
    (∀ (st : SysState) (e : String), st.pocketbaseUrlEnv = some e →
      e ≠ "" → constructorPbUrl st = e) := by
  refine ⟨?_, ?_, ?_⟩
  · intro st st' h
    simp [constructorPbUrl, h]
  · intro st h
    simp [constructorPbUrl, h, jsOrStr]
  · intro st e h he
    simp [constructorPbUrl, h, jsOrStr, he]

/-- Witness for C4: a state whose config file says `http://a` and whose
environment is unset still resolves to the default; with the variable
set to `http://b` the client URL is `http://b` whatever the file says. -/
theorem constructorPbUrl_env_only_witness :
    constructorPbUrl ⟨some (some ⟨some "http://a"⟩), none⟩ =
      constructorPbUrl ⟨none, none⟩ ∧
    constructorPbUrl ⟨some (some ⟨some "http://a"⟩), none⟩ =
      "http://127.0.0.1:8090" ∧
    constructorPbUrl ⟨some (some ⟨some "http://a"⟩), some "http://b"⟩ =
      "http://b" := by
  refine ⟨?_, ?_, ?_⟩
  · exact constructorPbUrl_env_only.1 ⟨some (some ⟨some "http://a"⟩), none⟩
      ⟨none, none⟩ rfl
  · exact constructorPbUrl_env_only.2.1
      ⟨some (some ⟨some "http://a"⟩), none⟩ rfl
  · exact constructorPbUrl_env_only.2.2
      ⟨some (some ⟨some "http://a"⟩), some "http://b"⟩ "http://b" rfl
      (by decide)

/-- One element of an MCP tool response's `content` array; the server only
ever emits elements with `type: 'text'`. -/
structure ContentItem where
  type : String
  text : String
deriving DecidableEq

/-- The uniform MCP tool response envelope `{ content: [...] }` produced by
every handler and by the dispatcher's catch-all. -/
structure ToolResponse where
  content : List ContentItem
deriving DecidableEq

/-- Error codes of the Node.js filesystem errors the server inspects or can
encounter on its hook paths. -/
inductive FsErrorCode where
  | ENOENT
  | EISDIR
  | EEXIST
deriving DecidableEq

/-- A Node.js filesystem error: a message plus its `code` property. -/
structure FsError where
  code : FsErrorCode
  message : String
deriving DecidableEq

/-- A thrown JavaScript `Error`: its `message`, and its `code` property when
the error originated in the filesystem layer (`error.code === 'ENOENT'`
checks in the hook handlers); errors constructed with `new Error(msg)`
carry no code. -/
structure JsError where
  message : String
  code : Option FsErrorCode
deriving DecidableEq

/-- Upgrades a filesystem error to the JavaScript error value seen by a
`catch (error)` block. -/
def fsErrorToJs (e : FsError) : JsError :=
  ⟨e.message, some e.code⟩

/-- State of the local filesystem as the server touches it: text files as
an association list from absolute path to content (lookup takes the most
recent entry), plus the set of directory paths. -/
structure FS where
  files : List (String × String)
  dirs : List String
deriving DecidableEq

/-- Model of `fs.readFile(p, 'utf-8')`: the file's content, `EISDIR` on a
directory, `ENOENT` when nothing exists at the path. -/
def FS.readFile (fs : FS) (p : String) : Except FsError String :=
  if p ∈ fs.dirs then
    .error ⟨.EISDIR, "EISDIR: illegal operation on a directory, read"⟩
  else
    match fs.files.lookup p with
    | some c => .ok c
    | none =>
      .error ⟨.ENOENT, "ENOENT: no such file or directory, open " ++ p⟩

/-- Model of `fs.writeFile(p, c, 'utf-8')`: creates or overwrites the file,
failing with `EISDIR` when the path names a directory. -/
def FS.writeFile (fs : FS) (p c : String) : Except FsError FS :=
  if p ∈ fs.dirs then
    .error ⟨.EISDIR, "EISDIR: illegal operation on a directory, open " ++ p⟩
  else
    .ok { fs with files := (p, c) :: fs.files }

/-- Model of `fs.mkdir(p, { recursive: true })`: records the directory
(idempotently), failing with `EEXIST` when a file occupies the path. -/
def FS.mkdirRecursive (fs : FS) (p : String) : Except FsError FS :=
  match fs.files.lookup p with
  | some _ => .error ⟨.EEXIST, "EEXIST: file already exists, mkdir " ++ p⟩
  | none =>
    .ok { fs with dirs := if p ∈ fs.dirs then fs.dirs else p :: fs.dirs }

/-- Model of `fs.unlink(p)`: removes the file, `ENOENT` when nothing exists
at the path, `EISDIR` on a directory. -/
def FS.unlink (fs : FS) (p : String) : Except FsError FS :=
  if p ∈ fs.dirs then
    .error ⟨.EISDIR, "EISDIR: illegal operation on a directory, unlink " ++ p⟩
  else
    match fs.files.lookup p with
    | some _ =>
      .ok { fs with files := fs.files.filter (fun kv => !(kv.1 == p)) }
    | none =>
      .error ⟨.ENOENT, "ENOENT: no such file or directory, unlink " ++ p⟩

/-- Path of the hooks directory, `path.join(process.cwd(), 'pb_hooks')`
(`mcp-server.ts` lines 1719, 1762, 1791, 1815, 2092). -/
def hooksDirPath (cwd : String) : String :=
  pathJoin cwd "pb_hooks"

/-- Embedding of the `readHook` handler (`mcp-server.ts` lines 1760-1781):
reads the named file from the hooks directory and returns its content;
an `ENOENT` failure is re-thrown as `Hook file <filename> not found`,
any other filesystem error propagates unchanged. -/
def readHook (cwd filename : String) (fs : FS) : Except JsError ToolResponse :=
  let hookPath := pathJoin (hooksDirPath cwd) filename
  match fs.readFile hookPath with
  | .ok content => .ok ⟨[⟨"text", content⟩]⟩
  | .error e =>
    match e.code with
    | .ENOENT => .error ⟨"Hook file " ++ filename ++ " not found", none⟩
    | _ => .error (fsErrorToJs e)

/-- Embedding of the `createHook` handler (`mcp-server.ts` lines
1786-1808): appends `.js` to the filename when missing, creates the
hooks directory, writes the file, and reports success. -/
def createHook (cwd filename content : String) (fs : FS) :
    Except JsError ToolResponse × FS :=
  let hookFilename := if strEndsWith filename ".js" then filename
    else filename ++ ".js"
  let hooksDir := hooksDirPath cwd
  let hookPath := pathJoin hooksDir hookFilename
  match fs.mkdirRecursive hooksDir with
  | .error e => (.error (fsErrorToJs e), fs)
  | .ok fs1 =>
    match fs1.writeFile hookPath content with
    | .error e => (.error (fsErrorToJs e), fs1)
    | .ok fs2 =>
      (.ok ⟨[⟨"text",
        "Hook " ++ hookFilename ++ " created/updated successfully"⟩]⟩, fs2)

/-- Embedding of the `deleteHook` handler (`mcp-server.ts` lines
1813-1834): unlinks the named file from the hooks directory; an `ENOENT`
failure is re-thrown as `Hook file <filename> not found`, any other
filesystem error propagates unchanged. -/
def deleteHook (cwd filename : String) (fs : FS) :
    Except JsError ToolResponse × FS :=
  let hookPath := pathJoin (hooksDirPath cwd) filename
  match fs.unlink hookPath with
  | .ok fs1 =>
    (.ok ⟨[⟨"text", "Hook " ++ filename ++ " deleted successfully"⟩]⟩, fs1)
  | .error e =>
    match e.code with
    | .ENOENT => (.error ⟨"Hook file " ++ filename ++ " not found", none⟩, fs)
    | _ => (.error (fsErrorToJs e), fs)

/-- Names declared in the Tool Catalog, in order: the `name` field of each
descriptor returned by `getTools` (`mcp-server.ts` lines 45-724). -/
def toolCatalogNames : List String := [
  "list_collections", "get_collection", "create_collection",
  "update_collection", "delete_collection", "import_collections",
  "list_records", "get_full_list", "get_first_list_item", "get_record",
  "create_record", "update_record", "delete_record", "batch_create",
  "batch_update", "batch_delete", "batch_upsert", "list_auth_methods",
  "auth_with_password", "auth_with_oauth2", "auth_refresh", "request_otp",
  "auth_with_otp", "request_password_reset", "confirm_password_reset",
  "request_verification", "confirm_verification", "request_email_change",
  "confirm_email_change", "get_file_url", "get_file_token", "list_logs",
  "get_log", "get_log_stats", "list_cron_jobs", "run_cron_job",
  "get_health", "get_settings", "update_settings", "create_backup",
  "list_backups", "upload_backup", "download_backup", "delete_backup",
  "restore_backup", "list_hooks", "read_hook", "create_hook", "delete_hook",
  "create_hook_template"]

/-- Names handled by the dispatcher, in order: the `case` labels of the
`switch (name)` in `setupToolHandlers` (`mcp-server.ts` lines 740-860). -/
def toolHandlerNames : List String := [
  "list_collections", "get_collection", "create_collection",
  "update_collection", "delete_collection", "import_collections",
  "list_records", "get_full_list", "get_first_list_item", "get_record",
  "create_record", "update_record", "delete_record", "batch_create",
  "batch_update", "batch_delete", "batch_upsert", "list_auth_methods",
  "auth_with_password", "auth_with_oauth2", "auth_refresh", "request_otp",
  "auth_with_otp", "request_password_reset", "confirm_password_reset",
  "request_verification", "confirm_verification", "request_email_change",
  "confirm_email_change", "get_file_url", "get_file_token", "list_logs",
  "get_log", "get_log_stats", "list_cron_jobs", "run_cron_job",
  "get_health", "get_settings", "update_settings", "create_backup",
  "list_backups", "upload_backup", "download_backup", "delete_backup",
  "restore_backup", "list_hooks", "read_hook", "create_hook", "delete_hook",
  "create_hook_template"]

/-- The dispatcher's catch-all (`mcp-server.ts` lines 864-873): a handler's
successful response is forwarded unchanged, and any thrown error becomes
a protocol-level-success response whose single text element is
`Error: ` followed by the error's message. -/
def callToolResult (r : Except JsError ToolResponse) : ToolResponse :=
  match r with
  | .ok resp => resp
  | .error e => ⟨[⟨"text", "Error: " ++ e.message⟩]⟩

/-- The dispatcher `switch (name)` of `setupToolHandlers` (`mcp-server.ts`
lines 736-874), abstracted over the behaviour `run` of the fifty named
handlers: a name with a `case` label is dispatched to its handler, the
`default` branch throws `Unknown tool: <name>`, and the surrounding
`try`/`catch` renders every thrown error via `callToolResult`, so the
dispatcher always returns a response and never raises to its caller. -/
def handleCallTool (name : String)
    (run : String → Except JsError ToolResponse) : ToolResponse :=
  callToolResult
    (if toolHandlerNames.contains name then run name
     else .error ⟨"Unknown tool: " ++ name, none⟩)

/-- C5: dispatching any name not present in the dispatch table returns
(rather than raises) a response whose single text element is exactly
`Error: Unknown tool: ` followed by the requested name, whatever the
registered handlers do. -/
theorem handleCallTool_unknown_tool (name : String)
    (run : String → Except JsError ToolResponse)
    (h : toolHandlerNames.contains name = false) :
    handleCallTool name run =
      ⟨[⟨"text", "Error: Unknown tool: " ++ name⟩]⟩ := by
  have h' : ¬ name ∈ toolHandlerNames := by simpa using h
  simp [handleCallTool, h', callToolResult]
  rw [← String.append_assoc]
  congr 1

/-- Witness for C5: dispatching `nonexistent_tool` yields the text
`Error: Unknown tool: nonexistent_tool`. -/
theorem handleCallTool_unknown_tool_witness :
    toolHandlerNames.contains "nonexistent_tool" = false ∧
    handleCallTool "nonexistent_tool" (fun _ => .ok ⟨[]⟩) =
      ⟨[⟨"text", "Error: Unknown tool: nonexistent_tool"⟩]⟩ :=
  ⟨by decide,
   handleCallTool_unknown_tool "nonexistent_tool" (fun _ => .ok ⟨[]⟩)
     (by decide)⟩

/-- C9: the Tool Catalog and the dispatcher's lookup table declare exactly
the same tool names — the two lists coincide element by element and
contain no duplicate, so every catalog name has exactly one handler case
and every handler case appears exactly once in the catalog. -/
theorem tool_catalog_matches_dispatch :
    toolCatalogNames = toolHandlerNames ∧ toolCatalogNames.Nodup :=
  ⟨rfl, by decide⟩

/-- Appending on the left preserves a contiguous occurrence. -/
theorem listContainsSeq_append_right (pat x y : List Char)
    (h : listContainsSeq pat y = true) :
    listContainsSeq pat (x ++ y) = true := by
  induction x with
  | nil => simpa using h
  | cons a l ih => simp [listContainsSeq, ih]

/-- Appending on the left preserves substring containment. -/
theorem containsStr_append_right (a b pat : String)
    (h : containsStr b pat = true) :
    containsStr (a ++ b) pat = true := by
  unfold containsStr at h ⊢
  rw [String.data_append]
  exact listContainsSeq_append_right _ _ _ h

/-- One OAuth2 provider entry as reported by the backend's
`listAuthMethods` response (the fields `authWithOAuth2` reads). -/
structure OAuth2Provider where
  name : String
  authURL : String
  state : String
  codeVerifier : String
  codeChallenge : String
  codeChallengeMethod : String
deriving DecidableEq

/-- The `oauth2` object of a `listAuthMethods` response; its `providers`
array may be absent (the source guards it with `?.`). -/
structure OAuth2Info where
  providers : Option (List OAuth2Provider)
deriving DecidableEq

/-- A `listAuthMethods` response as far as `authWithOAuth2` inspects it;
the `oauth2` object may be absent (guarded with `?.`). -/
structure AuthMethodsResult where
  oauth2 : Option OAuth2Info
deriving DecidableEq

/-- A call issued to the PocketBase backend; `authWithOAuth2` issues only
`listAuthMethods` lookups. -/
inductive BackendCall where
  | listAuthMethods (collection : String)
deriving DecidableEq

/-- JSON string escaping for the serialized success payload (quotes and
backslashes; the fields involved are plain strings). -/
def jsonEscape (s : String) : String :=
  String.mk (s.data.foldr (fun c acc =>
    if c = '\\' then '\\' :: '\\' :: acc
    else if c = '"' then '\\' :: '"' :: acc
    else c :: acc) [])

/-- The `JSON.stringify({...}, null, 2)` payload built by `authWithOAuth2`
on success (`mcp-server.ts` lines 1272-1278), assuming the five provider
fields are strings as the PocketBase SDK reports them. -/
def oauth2SuccessJson (p : OAuth2Provider) : String :=
  "\x7b\n  \"authURL\": \"" ++ jsonEscape p.authURL ++
  "\",\n  \"state\": \"" ++ jsonEscape p.state ++
  "\",\n  \"codeVerifier\": \"" ++ jsonEscape p.codeVerifier ++
  "\",\n  \"codeChallenge\": \"" ++ jsonEscape p.codeChallenge ++
  "\",\n  \"codeChallengeMethod\": \"" ++ jsonEscape p.codeChallengeMethod ++
  "\"\n\x7d"

/-- Embedding of the `authWithOAuth2` handler (`mcp-server.ts` lines
1259-1282): it performs a single `listAuthMethods` backend call
(`backend` maps a collection to the methods the backend reports, and the
returned list records every backend call issued), looks the named
provider up locally with `find`, throws
`OAuth2 provider <provider> not found` when absent, and otherwise
serializes the provider's URL data. -/
def authWithOAuth2 (collection provider : String)
    (backend : String → AuthMethodsResult) :
    Except JsError ToolResponse × List BackendCall :=
  let authMethods := backend collection
  let calls := [BackendCall.listAuthMethods collection]
  let providerData : Option OAuth2Provider :=
    match authMethods.oauth2 with
    | some o2 =>
      match o2.providers with
      | some ps => ps.find? (fun p => p.name == provider)
      | none => none
    | none => none
  match providerData with
  | none =>
    (.error ⟨"OAuth2 provider " ++ provider ++ " not found", none⟩, calls)
  | some p => (.ok ⟨[⟨"text", oauth2SuccessJson p⟩]⟩, calls)

/-- The OAuth2 provider list the backend reports inside a `listAuthMethods`
response (empty when the optional-chained fields are absent). -/
def reportedOAuth2Providers (m : AuthMethodsResult) : List OAuth2Provider :=
  match m.oauth2 with
  | some o2 => o2.providers.getD []
  | none => []

/-- C6: when the requested provider name does not occur in the OAuth2
provider list the backend reports for the collection, `auth_with_oauth2`
fails with a message containing `not found` and its backend traffic is
exactly the single `listAuthMethods` lookup. -/
theorem authWithOAuth2_provider_not_found (collection provider : String)
    (backend : String → AuthMethodsResult)
    (h : ∀ p ∈ reportedOAuth2Providers (backend collection),
      p.name ≠ provider) :
    authWithOAuth2 collection provider backend =
      (.error ⟨"OAuth2 provider " ++ provider ++ " not found", none⟩,
        [BackendCall.listAuthMethods collection]) ∧
    containsStr ("OAuth2 provider " ++ provider ++ " not found")
      "not found" = true := by
  constructor
  · unfold authWithOAuth2
    cases ho : (backend collection).oauth2 with
    | none => simp [ho]
    | some o2 =>
      cases hp : o2.providers with
      | none => simp [ho, hp]
      | some ps =>
        have hfind : ps.find? (fun p => p.name == provider) = none := by
          apply List.find?_eq_none.mpr
          intro p hp2
          have := h p (by simp [reportedOAuth2Providers, ho, hp, hp2])
          simpa using this
        simp [ho, hp, hfind]
  · exact containsStr_append_right _ " not found" "not found" (by decide)

/-- Witness for C6: a backend reporting only a `google` provider makes
`auth_with_oauth2` for `github` fail with the `not found` message after
the single lookup. -/
theorem authWithOAuth2_provider_not_found_witness :
    (∀ p ∈ reportedOAuth2Providers
      ((fun _ => AuthMethodsResult.mk
        (some ⟨some [⟨"google", "a", "s", "v", "c", "m"⟩]⟩)) "users"),
      p.name ≠ "github") ∧
    authWithOAuth2 "users" "github"
      (fun _ => AuthMethodsResult.mk
        (some ⟨some [⟨"google", "a", "s", "v", "c", "m"⟩]⟩)) =
      (.error ⟨"OAuth2 provider " ++ "github" ++ " not found", none⟩,
        [BackendCall.listAuthMethods "users"]) ∧
    containsStr ("OAuth2 provider " ++ "github" ++ " not found")
      "not found" = true := by
  refine ⟨by decide, ?_⟩
  exact authWithOAuth2_provider_not_found "users" "github"
    (fun _ => AuthMethodsResult.mk
      (some ⟨some [⟨"google", "a", "s", "v", "c", "m"⟩]⟩)) (by decide)

/-- C7: deleting a hook file that does not exist produces the thrown
`Hook file <filename> not found` error, which the dispatcher's catch
renders as an `Error: ...` envelope containing `not found`; the
filesystem is untouched and no unhandled error escapes (the dispatcher
result is an ordinary response). -/
theorem deleteHook_missing_file_not_found (cwd filename : String) (fs : FS)
    (h1 : fs.files.lookup (pathJoin (hooksDirPath cwd) filename) = none)
    (h2 : pathJoin (hooksDirPath cwd) filename ∉ fs.dirs) :
    deleteHook cwd filename fs =
      (.error ⟨"Hook file " ++ filename ++ " not found", none⟩, fs) ∧
    callToolResult (deleteHook cwd filename fs).1 =
      ⟨[⟨"text", "Error: " ++ ("Hook file " ++ filename ++ " not found")⟩]⟩ ∧
    containsStr ("Hook file " ++ filename ++ " not found")
      "not found" = true := by
  have hmain : deleteHook cwd filename fs =
      (.error ⟨"Hook file " ++ filename ++ " not found", none⟩, fs) := by
    simp [deleteHook, FS.unlink, h1, h2]
  refine ⟨hmain, ?_, ?_⟩
  · rw [hmain]
    rfl
  · exact containsStr_append_right _ " not found" "not found" (by decide)

/-- Witness for C7: deleting `missing.js` on an empty filesystem yields
the `not found` error envelope and leaves the filesystem unchanged. -/
theorem deleteHook_missing_file_not_found_witness :
    deleteHook "/app" "missing.js" ⟨[], []⟩ =
      (.error ⟨"Hook file " ++ "missing.js" ++ " not found", none⟩,
        ⟨[], []⟩) ∧
    callToolResult (deleteHook "/app" "missing.js" ⟨[], []⟩).1 =
      ⟨[⟨"text",
        "Error: " ++ ("Hook file " ++ "missing.js" ++ " not found")⟩]⟩ ∧
    containsStr ("Hook file " ++ "missing.js" ++ " not found")
      "not found" = true :=
  deleteHook_missing_file_not_found "/app" "missing.js" ⟨[], []⟩
    (by decide) (by decide)

/-- The `record-validation` template literal (`mcp-server.ts` lines
1847-1880), with `c` the already-defaulted collection name interpolated
at each `$\x7bcollection || 'collection'\x7d` site. -/
def recordValidationTemplate (c : String) : String :=
  "// Hook for " ++ c ++ " record validation\nonRecordCreateRequest((e) => \x7b\n    // Get the record data\n    const data = e.record.originalCopy || e.record;\n    \n    // Example: Validate a required field\n    if (!data.title || data.title.trim() === \x27\x27) \x7b\n        throw new Error(\x27Title is required\x27);\n    \x7d\n    \n    // Example: Validate field length\n    if (data.title && data.title.length > 100) \x7b\n        throw new Error(\x27Title must be less than 100 characters\x27);\n    \x7d\n    \n    // Example: Custom validation logic\n    // if (data.price && data.price < 0) \x7b\n    //     throw new Error(\x27Price must be positive\x27);\n    // \x7d\n\x7d, \"" ++ c ++ "\");\n\nonRecordUpdateRequest((e) => \x7b\n    // Same validation for updates\n    const data = e.record.originalCopy || e.record;\n    \n    if (!data.title || data.title.trim() === \x27\x27) \x7b\n        throw new Error(\x27Title is required\x27);\n    \x7d\n    \n    if (data.title && data.title.length > 100) \x7b\n        throw new Error(\x27Title must be less than 100 characters\x27);\n    \x7d\n\x7d, \""
     ++ c ++ "\");\n"

/-- The `record-auth` template literal (`mcp-server.ts` lines 1885-1911),
with `c` interpolated at each `$\x7bcollection || 'users'\x7d` site. -/
def recordAuthTemplate (c : String) : String :=
  "// Custom authentication logic for " ++ c ++ "\nonRecordAuthRequest((e) => \x7b\n    // Example: Log authentication attempts\n    console.log(\x60Authentication attempt for: $\x7be.identity\x7d\x60);\n    \n    // Example: Add custom validation\n    // if (e.identity.includes(\x27blocked\x27)) \x7b\n    //     throw new Error(\x27This account has been blocked\x27);\n    // \x7d\n    \n    // Example: Add rate limiting logic\n    // You could implement rate limiting by tracking attempts in a custom collection\n\x7d, \"" ++ c ++ "\");\n\n// Hook for after successful authentication\nonRecordAfterAuthWithPasswordRequest((e) => \x7b\n    // Example: Update last login time\n    const record = e.record;\n    record.set(\x27lastLogin\x27, new Date().toISOString());\n    \n    // Save without triggering hooks\n    app.dao().saveRecord(record);\n    \n    // Example: Log successful login\n    console.log(\x60User $\x7brecord.get(\x27email\x27)\x7d logged in successfully\x60);\n\x7d, \""
     ++ c ++ "\");\n"

/-- The `custom-route` template literal (`mcp-server.ts` lines 1916-1971);
it has no interpolation site. -/
def customRouteTemplate : String :=
  "// Custom API routes\nrouterAdd(\"GET\", \"/api/custom/hello\", (e) => \x7b\n    // Example: Simple JSON response\n    return e.json(200, \x7b\n        message: \"Hello from custom route!\",\n        timestamp: new Date().toISOString()\n    \x7d);\n\x7d);\n\n// Example: Route with authentication\nrouterAdd(\"GET\", \"/api/custom/user-data\", (e) => \x7b\n    // Get authenticated user\n    const user = e.auth;\n    \n    if (!user) \x7b\n        return e.json(401, \x7b error: \"Unauthorized\" \x7d);\n    \x7d\n    \n    return e.json(200, \x7b\n        id: user.id,\n        email: user.email,\n        created: user.created\n    \x7d);\n\x7d, /* optional middleware */ $apis.requireAuth());\n\n// Example: Route with parameters\nrouterAdd(\"GET\", \"/api/custom/items/:id\", (e) => \x7b\n    const id = e.request.pathValue(\"id\");\n    \n    try \x7b\n        // Fetch record from database\n        const record = app.dao().findRecordById(\"items\", id);\n        \n        return e.json(200, \x7b\n            id: record.id,\n            data: record.publicExport()\n        \x7d);\n    \x7d catch (err) \x7b\n        return e.json(404, \x7b error: \"Item not found\" \x7d);\n    \x7d\n\x7d);\n\n// Example: POST route with body parsing\nrouterAdd(\"POST\", \"/api/custom/submit\", async (e) => \x7b\n    // Parse JSON body\n    const data = await e.request.json();\n    \n    // Validate input\n    if (!data.name || !data.email) \x7b\n        return e.json(400, \x7b error: \"Name and email are required\" \x7d);\n    \x7d\n    \n    // Process the data...\n    return e.json(200, \x7b success: true \x7d);\n\x7d);\n"

/-- The `file-upload` template literal (`mcp-server.ts` lines 1976-2019),
with `c` interpolated at each `$\x7bcollection || 'collection'\x7d` site. -/
def fileUploadTemplate (c : String) : String :=
  "// File upload validation for " ++ c ++ "\nonRecordCreateRequest((e) => \x7b\n    // Get uploaded files\n    const files = e.uploadedFiles;\n    \n    // Example: Validate file types\n    const allowedTypes = [\x27image/jpeg\x27, \x27image/png\x27, \x27image/gif\x27];\n    \n    for (const [fieldName, filesList] of Object.entries(files)) \x7b\n        for (const file of filesList) \x7b\n            // Check file type\n            if (!allowedTypes.includes(file.type)) \x7b\n                throw new Error(\x60Invalid file type for $\x7bfieldName\x7d: $\x7bfile.type\x7d\x60);\n            \x7d\n            \n            // Check file size (5MB limit)\n            const maxSize = 5 * 1024 * 1024; // 5MB\n            if (file.size > maxSize) \x7b\n                throw new Error(\x60File too large for $\x7bfieldName\x7d: $\x7bfile.name\x7d\x60);\n            \x7d\n        \x7d\n    \x7d\n    \n    // Example: Ensure at least one image is uploaded\n    // if (!files.image || files.image.length === 0) \x7b\n    //     throw new Error(\x27At least one image is required\x27);\n    // \x7d\n\x7d, \""
     ++ c ++ "\");\n\n// Process files after upload\nonRecordAfterCreateRequest((e) => \x7b\n    const record = e.record;\n    \n    // Example: Generate thumbnails or process images\n    // This would require additional libraries or external services\n    console.log(\x60Files uploaded for record $\x7brecord.id\x7d\x60);\n    \n    // Example: Update a field based on uploaded files\n    // if (record.get(\x27images\x27) && record.get(\x27images\x27).length > 0) \x7b\n    //     record.set(\x27hasImages\x27, true);\n    //     app.dao().saveRecord(record);\n    // \x7d\n\x7d, \"" ++ c ++ "\");\n"

/-- The `scheduled-task` template literal (`mcp-server.ts` lines
2024-2087); it has no interpolation site. -/
def scheduledTaskTemplate : String :=
  "// Scheduled tasks using cron\n// This runs every hour at minute 0\ncronAdd(\"0 * * * *\", \"hourly-cleanup\", () => \x7b\n    // Example: Clean up old sessions or temporary data\n    const dao = app.dao();\n    \n    try \x7b\n        // Delete records older than 24 hours\n        const yesterday = new Date();\n        yesterday.setDate(yesterday.getDate() - 1);\n        \n        dao.db()\n            .newQuery(\"DELETE FROM temp_data WHERE created < \x7b:date\x7d\")\n            .bind(\x7b date: yesterday.toISOString() \x7d)\n            .execute();\n            \n        console.log(\"Hourly cleanup completed\");\n    \x7d catch (err) \x7b\n        console.error(\"Cleanup error:\", err);\n    \x7d\n\x7d);\n\n// Daily task at 2 AM\ncronAdd(\"0 2 * * *\", \"daily-report\", () => \x7b\n    // Example: Generate daily statistics\n    const dao = app.dao();\n    \n    try \x7b\n        // Count new users from yesterday\n        const yesterday = new Date();\n        yesterday.setDate(yesterday.getDate() - 1);\n        const today = new Date();\n        \n        const result = dao.db()\n            .newQuery(\"SELECT COUNT(*) as count FROM users WHERE created >= \x7b:start\x7d AND created < \x7b:end\x7d\")\n            .bind(\x7b \n                start: yesterday.toISOString().split(\x27T\x27)[0],\n                end: today.toISOString().split(\x27T\x27)[0]\n            \x7d)\n            .one();\n            \n        console.log(\x60New users yesterday: $\x7bresult.count\x7d\x60);\n        \n        // You could save this to a statistics collection\n        // const collection = dao.findCollectionByNameOrId(\"daily_stats\");\n        // const record = new Record(collection);\n        // record.set(\"date\", yesterday.toISOString().split(\x27T\x27)[0]);\n        // record.set(\"newUsers\", result.count);\n        // dao.saveRecord(record);\n        \n    \x7d catch (err) \x7b\n        console.error(\"Daily report error:\", err);\n    \x7d\n\x7d);\n\n// Weekly task on Sundays at 3 AM\ncronAdd(\"0 3 * * 0\", \"weekly-backup-reminder\", () => \x7b\n    // Example: Send backup reminder\n    console.log(\"Time to create a weekly backup!\");\n    \n    // You could trigger an actual backup here\n    // app.createBackup(\x60weekly_backup_$\x7bnew Date().toISOString().split(\x27T\x27)[0]\x7d.zip\x60);\n\x7d);\n"
/-- Embedding of the `createHookTemplate` handler (`mcp-server.ts` lines
1839-2104): the `switch (type)` selects filename and template (both the
JavaScript variables start out as the empty string, and the switch has
no `default` case, so an unrecognised type leaves them empty), then the
hooks directory is created and the file written. With an empty filename
`path.join` resolves to the hooks directory itself, so the write fails
with a filesystem error rather than any "unknown template type"
condition. -/
def createHookTemplate (cwd typeArg : String) (collection : Option String)
    (fs : FS) : Except JsError ToolResponse × FS :=
  let fileAndTemplate : String × String :=
    if typeArg = "record-validation" then
      (jsOrStr collection "collection" ++ "_validation.pb.js",
        recordValidationTemplate (jsOrStr collection "collection"))
    else if typeArg = "record-auth" then
      (jsOrStr collection "users" ++ "_auth.pb.js",
        recordAuthTemplate (jsOrStr collection "users"))
    else if typeArg = "custom-route" then
      ("custom_routes.pb.js", customRouteTemplate)
    else if typeArg = "file-upload" then
      (jsOrStr collection "collection" ++ "_file_upload.pb.js",
        fileUploadTemplate (jsOrStr collection "collection"))
    else if typeArg = "scheduled-task" then
      ("scheduled_tasks.pb.js", scheduledTaskTemplate)
    else ("", "")
  let hooksDir := hooksDirPath cwd
  match fs.mkdirRecursive hooksDir with
  | .error e => (.error (fsErrorToJs e), fs)
  | .ok fs1 =>
    match fs1.writeFile (pathJoin hooksDir fileAndTemplate.1)
        fileAndTemplate.2 with
    | .error e => (.error (fsErrorToJs e), fs1)
    | .ok fs2 =>
      (.ok ⟨[⟨"text", "Hook template \x27" ++ fileAndTemplate.1 ++
        "\x27 created with " ++ typeArg ++ " template"⟩]⟩, fs2)

/-- Appending a non-empty string yields a non-empty string. -/
theorem append_ne_empty_of_right (a b : String) (hb : b.data ≠ []) :
    a ++ b ≠ "" := by
  intro h
  have hd := congrArg String.data h
  rw [String.data_append] at hd
  simp at hd
  exact hb hd.2

/-- Joining a non-empty component onto a path never returns the base path
itself. -/
theorem pathJoin_ne_left (a b : String) (hb : b ≠ "") : pathJoin a b ≠ a := by
  unfold pathJoin
  by_cases ha : a = ""
  · subst ha
    simp [hb]
  · simp [ha, hb]
    intro hcontra
    have hlen := congrArg String.length hcontra
    rw [String.length_append, String.length_append] at hlen
    have hslash : ("/" : String).length = 1 := rfl
    rw [hslash] at hlen
    omega

/-- C1 (amended): `create_hook` with a filename lacking the `.js` suffix
does not fail — it silently appends `.js` and writes the file into the
hooks directory, answering with a success message. -/
theorem createHook_missing_suffix_appends (cwd filename content : String)
    (fs : FS)
    (h1 : strEndsWith filename ".js" = false)
    (h2 : fs.files.lookup (hooksDirPath cwd) = none)
    (h3 : pathJoin (hooksDirPath cwd) (filename ++ ".js") ∉ fs.dirs) :
    createHook cwd filename content fs =
      (.ok ⟨[⟨"text", "Hook " ++ (filename ++ ".js") ++
        " created/updated successfully"⟩]⟩,
       ⟨(pathJoin (hooksDirPath cwd) (filename ++ ".js"), content) ::
          fs.files,
        if hooksDirPath cwd ∈ fs.dirs then fs.dirs
        else hooksDirPath cwd :: fs.dirs⟩) := by
  have hne : (filename ++ ".js") ≠ "" :=
    append_ne_empty_of_right filename ".js" (by decide)
  have hneq : pathJoin (hooksDirPath cwd) (filename ++ ".js") ≠
      hooksDirPath cwd := pathJoin_ne_left _ _ hne
  have hmk : fs.mkdirRecursive (hooksDirPath cwd) =
      .ok ⟨fs.files, if hooksDirPath cwd ∈ fs.dirs then fs.dirs
        else hooksDirPath cwd :: fs.dirs⟩ := by
    simp [FS.mkdirRecursive, h2]
  have hnotin : pathJoin (hooksDirPath cwd) (filename ++ ".js") ∉
      (if hooksDirPath cwd ∈ fs.dirs then fs.dirs
       else hooksDirPath cwd :: fs.dirs) := by
    by_cases hd : hooksDirPath cwd ∈ fs.dirs
    · simpa [hd] using h3
    · simp [hd, List.mem_cons]
      exact ⟨hneq, h3⟩
  have hwr : FS.writeFile
      ⟨fs.files, if hooksDirPath cwd ∈ fs.dirs then fs.dirs
        else hooksDirPath cwd :: fs.dirs⟩
      (pathJoin (hooksDirPath cwd) (filename ++ ".js")) content =
      .ok ⟨(pathJoin (hooksDirPath cwd) (filename ++ ".js"), content) ::
          fs.files,
        if hooksDirPath cwd ∈ fs.dirs then fs.dirs
        else hooksDirPath cwd :: fs.dirs⟩ := by
    simp [FS.writeFile, hnotin]
  simp [createHook, h1, hmk, hwr]

/-- Witness for the amended C1: writing `test` with content `x` on an
empty filesystem creates `test.js` and succeeds. -/
theorem createHook_missing_suffix_appends_witness :
    createHook "/app" "test" "x" ⟨[], []⟩ =
      (.ok ⟨[⟨"text", "Hook " ++ ("test" ++ ".js") ++
        " created/updated successfully"⟩]⟩,
       ⟨[(pathJoin (hooksDirPath "/app") ("test" ++ ".js"), "x")],
        ["/app/pb_hooks"]⟩) := by
  exact createHook_missing_suffix_appends "/app" "test" "x" ⟨[], []⟩
    (by decide) (by decide) (by decide)

/-- Decidable equality on handler results, so that concrete evaluations
can be settled by `decide`. -/
instance {ε α : Type} [DecidableEq ε] [DecidableEq α] :
    DecidableEq (Except ε α) := fun a b =>
  match a, b with
  | .ok x, .ok y =>
    if h : x = y then .isTrue (congrArg Except.ok h)
    else .isFalse (fun hc => h (Except.ok.inj hc))
  | .error x, .error y =>
    if h : x = y then .isTrue (congrArg Except.error h)
    else .isFalse (fun hc => h (Except.error.inj hc))
  | .ok _, .error _ => .isFalse (fun hc => Except.noConfusion hc)
  | .error _, .ok _ => .isFalse (fun hc => Except.noConfusion hc)

/-- Counterexample to C1 as stated: called with filename `test` (which
lacks the `.js` suffix) the handler does not fail — its result is a
success response whose text does not contain `must end with` — and it
does write a file (`/app/pb_hooks/test.js`) into the hooks directory. -/
theorem createHook_missing_suffix_counterexample :
    strEndsWith "test" ".js" = false ∧
    createHook "/app" "test" "// x" ⟨[], []⟩ =
      (.ok ⟨[⟨"text", "Hook test.js created/updated successfully"⟩]⟩,
       ⟨[("/app/pb_hooks/test.js", "// x")], ["/app/pb_hooks"]⟩) ∧
    containsStr "Hook test.js created/updated successfully"
      "must end with" = false := by
  decide

/-- C8: hook create/read round-trip. For every filename carrying the
required `.js` suffix and every content string, `create_hook` succeeds,
the file at the resolved hooks-directory path holds exactly the written
content, and a subsequent `read_hook` with the same filename returns
exactly that content. -/
theorem createHook_readHook_roundtrip (cwd filename content : String)
    (fs : FS)
    (h1 : strEndsWith filename ".js" = true)
    (h2 : fs.files.lookup (hooksDirPath cwd) = none)
    (h3 : pathJoin (hooksDirPath cwd) filename ∉ fs.dirs) :
    createHook cwd filename content fs =
      (.ok ⟨[⟨"text",
        "Hook " ++ filename ++ " created/updated successfully"⟩]⟩,
       ⟨(pathJoin (hooksDirPath cwd) filename, content) :: fs.files,
        if hooksDirPath cwd ∈ fs.dirs then fs.dirs
        else hooksDirPath cwd :: fs.dirs⟩) ∧
    (createHook cwd filename content fs).2.files.lookup
      (pathJoin (hooksDirPath cwd) filename) = some content ∧
    readHook cwd filename (createHook cwd filename content fs).2 =
      .ok ⟨[⟨"text", content⟩]⟩ := by
  have hne : filename ≠ "" := by
    intro h
    subst h
    exact absurd h1 (by decide)
  have hneq : pathJoin (hooksDirPath cwd) filename ≠ hooksDirPath cwd :=
    pathJoin_ne_left _ _ hne
  have hmk : fs.mkdirRecursive (hooksDirPath cwd) =
      .ok ⟨fs.files, if hooksDirPath cwd ∈ fs.dirs then fs.dirs
        else hooksDirPath cwd :: fs.dirs⟩ := by
    simp [FS.mkdirRecursive, h2]
  have hnotin : pathJoin (hooksDirPath cwd) filename ∉
      (if hooksDirPath cwd ∈ fs.dirs then fs.dirs
       else hooksDirPath cwd :: fs.dirs) := by
    by_cases hd : hooksDirPath cwd ∈ fs.dirs
    · simpa [hd] using h3
    · simp [hd, List.mem_cons]
      exact ⟨hneq, h3⟩
  have hwr : FS.writeFile
      ⟨fs.files, if hooksDirPath cwd ∈ fs.dirs then fs.dirs
        else hooksDirPath cwd :: fs.dirs⟩
      (pathJoin (hooksDirPath cwd) filename) content =
      .ok ⟨(pathJoin (hooksDirPath cwd) filename, content) :: fs.files,
        if hooksDirPath cwd ∈ fs.dirs then fs.dirs
        else hooksDirPath cwd :: fs.dirs⟩ := by
    simp [FS.writeFile, hnotin]
  have hmain : createHook cwd filename content fs =
      (.ok ⟨[⟨"text",
        "Hook " ++ filename ++ " created/updated successfully"⟩]⟩,
       ⟨(pathJoin (hooksDirPath cwd) filename, content) :: fs.files,
        if hooksDirPath cwd ∈ fs.dirs then fs.dirs
        else hooksDirPath cwd :: fs.dirs⟩) := by
    simp [createHook, h1, hmk, hwr]
  refine ⟨hmain, ?_, ?_⟩
  · rw [hmain]
    simp [List.lookup]
  · rw [hmain]
    simp [readHook, FS.readFile, hnotin, List.lookup]

/-- Witness for C8: the spec's own instance — filename `test.pb.js`,
content `// x`, starting from an empty filesystem. -/
theorem createHook_readHook_roundtrip_witness :
    createHook "/app" "test.pb.js" "// x" ⟨[], []⟩ =
      (.ok ⟨[⟨"text",
        "Hook " ++ "test.pb.js" ++ " created/updated successfully"⟩]⟩,
       ⟨[(pathJoin (hooksDirPath "/app") "test.pb.js", "// x")],
        if hooksDirPath "/app" ∈ ([] : List String) then []
        else [hooksDirPath "/app"]⟩) ∧
    (createHook "/app" "test.pb.js" "// x" ⟨[], []⟩).2.files.lookup
      (pathJoin (hooksDirPath "/app") "test.pb.js") = some "// x" ∧
    readHook "/app" "test.pb.js"
      (createHook "/app" "test.pb.js" "// x" ⟨[], []⟩).2 =
      .ok ⟨[⟨"text", "// x"⟩]⟩ := by
  exact createHook_readHook_roundtrip "/app" "test.pb.js" "// x" ⟨[], []⟩
    (by decide) (by decide) (by decide)

/-- C2 (code evaluated at the failing input): `create_hook_template` with
the unknown type `bogus` falls through the `switch` with an empty
filename, so the write targets the hooks directory itself and the call
fails with a filesystem `EISDIR` error — not with any message containing
`unknown template type` — and writes no file (the resulting filesystem
has gained only the `pb_hooks` directory, no file entry). -/
theorem createHookTemplate_unknown_type_behavior :
    createHookTemplate "/app" "bogus" none ⟨[], []⟩ =
      (.error
        ⟨"EISDIR: illegal operation on a directory, open /app/pb_hooks",
          some .EISDIR⟩,
       ⟨[], ["/app/pb_hooks"]⟩) ∧
    containsStr
      "EISDIR: illegal operation on a directory, open /app/pb_hooks"
      "unknown template type" = false ∧
    containsStr
      "EISDIR: illegal operation on a directory, open /app/pb_hooks"
      "Unknown template type" = false := by
  decide

/-- C10: `create_hook_template` with type `record-validation` and
collection `posts` writes `posts_validation.pb.js` whose content is the
template with `posts` interpolated at every placeholder site: the
generated text contains the literal substring `posts`, and no
placeholder text survives — neither a JavaScript interpolation marker
`$\x7b` nor the placeholder's default word `collection` occurs anywhere
in it. -/
theorem createHookTemplate_record_validation_posts :
    createHookTemplate "/app" "record-validation" (some "posts")
      ⟨[], []⟩ =
      (.ok ⟨[⟨"text", "Hook template \x27posts_validation.pb.js\x27 " ++
        "created with record-validation template"⟩]⟩,
       ⟨[("/app/pb_hooks/posts_validation.pb.js",
          recordValidationTemplate "posts")], ["/app/pb_hooks"]⟩) ∧
    containsStr (recordValidationTemplate "posts") "posts" = true ∧
    containsStr (recordValidationTemplate "posts") "$\x7b" = false ∧
    containsStr (recordValidationTemplate "posts") "collection" = false := by
  refine ⟨?_, by decide, by decide, by decide⟩
  decide
